import Mathlib

/-!
Shallow embedding of the real-time fan-out core of the softadastra_chat
backend, together with theorems settling the specification claims.

The embedding covers:
 - the analytics hub (live/analyticsHub.js, src/unnamed/part_000):
   event ingestion, the 2-second flush tick, the active-now cache;
 - the chat hub (ws/chat.js, src/unnamed/part_020): thread
   canonicalization, the auth handler, the close handler;
 - the likes hub (src/ws/index.js) and the like-update fan-out
   (src/routes/likes.js);
 - the WebSocket ticket verifier (src/utils/ws-ticket.js).

JavaScript Maps are modelled as association lists preserving insertion
order; JS Sets as duplicate-free lists in insertion order; JS numbers
appearing here are integers and are modelled as Int; fallible parsing
(Number(...) producing NaN) returns Option.
-/

namespace Softadastra

/-- A JavaScript value as it can appear in an inbound JSON frame field
(the cases the handlers under study can meet). -/
inductive JsVal where
  | undef : JsVal
  | null : JsVal
  | num : Int → JsVal
  | str : String → JsVal
  | bool : Bool → JsVal
deriving DecidableEq, Repr

/-- JS String(v) coercion: String(undefined) is "undefined",
String(null) is "null", numbers print in decimal, booleans as
"true"/"false". -/
def jsToString : JsVal → String
  | .undef => "undefined"
  | .null => "null"
  | .num n => toString n
  | .str s => s
  | .bool b => if b then "true" else "false"

/-- Model of JS Number(s) for a string, restricted to the canonical
decimal integer forms that can reach the handlers under study: "" is 0,
a digit string is its value, a minus sign followed by digits is the
negation; every other string is modelled as NaN (none).  (Lexical forms
such as hex, exponents or non-integer decimals are out of scope of the
claims; mapping them to none coincides with the Number.isInteger gates
the code applies at every use site.) -/
def parseDecNat (cs : List Char) : Option Nat :=
  if cs = [] then none
  else if cs.all (fun c => c.isDigit) then
    some (cs.foldl (fun acc c => acc * 10 + (c.toNat - 48)) 0)
  else none

/-- See the comment above: the canonical-decimal fragment of Number(s). -/
def jsStringToNumber (s : String) : Option Int :=
  match s.data with
  | [] => some 0
  | '-' :: rest => (parseDecNat rest).map (fun n => -(n : Int))
  | cs => (parseDecNat cs).map (fun n => (n : Int))

/-- Model of JS Number(v) on a JsVal (integer-valued results only; none
models NaN or a non-integer). -/
def jsToNumber : JsVal → Option Int
  | .undef => none
  | .null => some 0
  | .num n => some n
  | .str s => jsStringToNumber s
  | .bool b => some (if b then 1 else 0)

/-- JS truthiness of an optional string field (undefined and "" are
falsy). -/
def strTruthy : Option String → Bool
  | none => false
  | some s => s ≠ ""

/-- JS toLowerCase(), modelled character-wise over the string's
characters (ASCII case folding, which covers every frame literal the
handlers compare against). -/
def jsToLower (s : String) : String := ⟨s.data.map Char.toLower⟩

/-- `String(x || "")` applied to an optional string field. -/
def jsStrField : Option String → String
  | none => ""
  | some s => s

/-! ### JS Map / Set modelled on association lists

`Map.set` updates an existing key in place (keeping insertion order) and
appends a fresh key at the end; `Map.get` returns the first (unique)
binding; `Map.delete` removes the binding; `Set.add` appends if absent. -/

variable {β : Type}

/-- JS Map.set. -/
def mapSet : List (String × β) → String → β → List (String × β)
  | [], k, v => [(k, v)]
  | (k', v') :: rest, k, v =>
    if k' = k then (k, v) :: rest else (k', v') :: mapSet rest k v

/-- JS Map.get (some v) / undefined (none). -/
def mapGet : List (String × β) → String → Option β
  | [], _ => none
  | (k', v') :: rest, k => if k' = k then some v' else mapGet rest k

/-- JS Map.delete. -/
def mapDelete : List (String × β) → String → List (String × β)
  | [], _ => []
  | (k', v') :: rest, k =>
    if k' = k then rest else (k', v') :: mapDelete rest k

/-- JS Set.add on a duplicate-free list. -/
def setAdd (s : List String) (x : String) : List String :=
  if x ∈ s then s else s ++ [x]

end Softadastra

namespace Softadastra.Analytics

/-! ### live/analyticsHub.js (src/unnamed/part_000) -/

/-- Five minutes in milliseconds (`FIVE_MIN`, part_000:223). -/
def FIVE_MIN : Int := 5 * 60 * 1000

/-- `TYPE_PAGE_HIT` (part_000:230). -/
def TYPE_PAGE_HIT : List String := ["pageview", "product_view"]

/-- `FUNNEL_NAMES` (part_000:236). -/
def FUNNEL_NAMES : List String := ["product_view", "add_to_cart", "checkout_start"]

/-- An inbound analytics event `{ type, name?, path?, anon_id?, ts? }`
(part_000:305).  Absent fields are none. -/
structure AnalyticsEvent where
  type : Option String := none
  name : Option String := none
  path : Option String := none
  anon_id : Option String := none
  ts : Option Int := none
deriving DecidableEq, Repr

/-- `normPath` (part_000:253-262).  The WHATWG URL parse
`new URL(p, "http://dummy").pathname` in the non-"/"-prefixed branch is
host behavior and is passed in as `urlPathname` (none models a parse
throw, routed to the catch branch exactly as in the source). -/
def normPath (urlPathname : String → Option String) : Option String → String
  | none => "/"
  | some p =>
    if p = "" then "/"
    else if p.startsWith "/" then
      let h := (p.splitOn "?").headD ""
      if h = "" then "/" else h
    else
      match urlPathname p with
      | some pn => if pn = "" then "/" else pn
      | none =>
        let h := (p.splitOn "?").headD ""
        if h = "" then "/" else h

/-- The per-path accumulator record `{ views: 0, visitors: 0 }` stored in
`pageDiff` (part_000:326); only `views` is ever incremented, `visitors`
for a row is computed from `pageSeen` at flush time. -/
structure PageCounters where
  views : Nat := 0
  visitors : Nat := 0
deriving DecidableEq, Repr

/-- The funnel accumulator `funnelDiff` (part_000:301). -/
structure FunnelDiff where
  product_view : Nat := 0
  add_to_cart : Nat := 0
  checkout_start : Nat := 0
deriving DecidableEq, Repr

/-- The in-memory state of one analytics hub instance: `pageDiff`,
`pageSeen`, `lastSeen`, `funnelDiff` (part_000:281-301). -/
structure AggState where
  pageDiff : List (String × PageCounters) := []
  pageSeen : List (String × List String) := []
  lastSeen : List (String × Int) := []
  funnelDiff : FunnelDiff := {}
deriving DecidableEq, Repr

/-- The empty hub state created by `makeAnalyticsHub`. -/
def AggState.init : AggState := {}

/-- `onTrackEvent(evt)` — the exported handler (part_000:311-350).
`nowMs` stands for `now()`; the event argument is none when `evt` is
null/undefined (the `if (!evt) return` guard). -/
def onTrackEvent (urlPathname : String → Option String) (nowMs : Int)
    (st : AggState) (evt : Option AnalyticsEvent) : AggState :=
  match evt with
  | none => st
  | some e =>
    -- const ts = evt.ts || now();  (0 is falsy)
    let ts : Int := match e.ts with
      | none => nowMs
      | some t => if t = 0 then nowMs else t
    -- if (evt.anon_id) lastSeen.set(evt.anon_id, ts);
    let lastSeen1 :=
      if strTruthy e.anon_id then mapSet st.lastSeen (jsStrField e.anon_id) ts
      else st.lastSeen
    let kind := jsToLower (jsStrField e.type)
    let name := jsToLower (jsStrField e.name)
    -- if (TYPE_PAGE_HIT.has(kind)) { ... }
    let hit := kind ∈ TYPE_PAGE_HIT
    let path := normPath urlPathname e.path
    let pageDiff1 :=
      if hit then
        let d := (mapGet st.pageDiff path).getD {}
        mapSet st.pageDiff path { d with views := d.views + 1 }
      else st.pageDiff
    let pageSeen1 :=
      if hit ∧ strTruthy e.anon_id then
        let s := (mapGet st.pageSeen path).getD []
        mapSet st.pageSeen path (setAdd s (jsStrField e.anon_id))
      else st.pageSeen
    -- funnel accounting
    let fd := st.funnelDiff
    let funnel1 :=
      if kind = "product_view" then
        { fd with product_view := fd.product_view + 1 }
      else if kind = "event" ∧ name ∈ FUNNEL_NAMES then
        if name = "product_view" then
          { fd with product_view := fd.product_view + 1 }
        else if name = "add_to_cart" then
          { fd with add_to_cart := fd.add_to_cart + 1 }
        else
          { fd with checkout_start := fd.checkout_start + 1 }
      else fd
    { pageDiff := pageDiff1, pageSeen := pageSeen1,
      lastSeen := lastSeen1, funnelDiff := funnel1 }

/-- A socket on the analytics WebSocket server as the flush loop sees
it: its readyState, and whether a `send` on it throws. -/
structure WsClient where
  readyState : Nat := 1
  failing : Bool := false
deriving DecidableEq, Repr

/-- One run of `wssAnalytics.clients.forEach((c) => { if (c.readyState
=== 1) c.send(msg); })` starting at index `i`: returns the indices on
which `send` was invoked, and whether a send threw.  A synchronous throw
inside `forEach` aborts the iteration, so clients after the first
failing open client are never attempted. -/
def sendLoopFrom (i : Nat) : List WsClient → List Nat × Bool
  | [] => ([], false)
  | c :: cs =>
    if c.readyState = 1 then
      if c.failing then ([i], true)
      else
        let r := sendLoopFrom (i + 1) cs
        (i :: r.1, r.2)
    else sendLoopFrom (i + 1) cs

/-- The indices of clients on which a broadcast attempt (`c.send`) was
made; the surrounding `try { ... } catch {}` swallows the abort flag. -/
def broadcastAttempts (cs : List WsClient) : List Nat :=
  (sendLoopFrom 0 cs).1

/-- One materialized row `{ path, views, visitors }` of a
`top_pages_diff` frame (part_000:380). -/
structure TopRow where
  path : String
  views : Nat
  visitors : Nat
deriving DecidableEq, Repr

/-- What one flush tick emitted: the active-now count (broadcast
unconditionally), the optional `top_pages_diff` rows, the optional
`funnel_diff` counters, and for each of the three sections the indices
of clients on which a send was attempted. -/
structure FlushOutput where
  activeNowCount : Nat
  activeNowSent : List Nat
  topRows : Option (List TopRow)
  topSent : List Nat
  funnelMsg : Option FunnelDiff
  funnelSent : List Nat
deriving DecidableEq, Repr

/-- The body of the 2-second `setInterval` flush tick
(part_000:360-409), as a state transformer producing the emitted
frames.  `nowMs` stands for `now()` at tick time. -/
def flushTick (nowMs : Int) (clients : List WsClient) (st : AggState) :
    FlushOutput × AggState :=
  -- ---- Active now ----  (counts fresh entries, deletes stale ones)
  let cutoff := nowMs - FIVE_MIN
  let lastSeen1 := st.lastSeen.filter (fun e => decide (cutoff ≤ e.2))
  let active := lastSeen1.length
  let activeSent := broadcastAttempts clients
  -- ---- Top pages diff ----  (materialize rows, clear both maps, send)
  let rows := st.pageDiff.map (fun e =>
    { path := e.1, views := e.2.views,
      visitors := ((mapGet st.pageSeen e.1).map List.length).getD 0 })
  let topRows := if st.pageDiff.isEmpty then none else some rows
  let topSent := if st.pageDiff.isEmpty then [] else broadcastAttempts clients
  let pageDiff1 : List (String × PageCounters) :=
    if st.pageDiff.isEmpty then st.pageDiff else []
  let pageSeen1 : List (String × List String) :=
    if st.pageDiff.isEmpty then st.pageSeen else []
  -- ---- Funnel diff ----  (send if any counter non-zero, then reset)
  let fd := st.funnelDiff
  let nonzero := fd.product_view ≠ 0 ∨ fd.add_to_cart ≠ 0 ∨ fd.checkout_start ≠ 0
  let funnelMsg := if nonzero then some fd else none
  let funnelSent := if nonzero then broadcastAttempts clients else []
  let fd1 : FunnelDiff := if nonzero then {} else fd
  (⟨active, activeSent, topRows, topSent, funnelMsg, funnelSent⟩,
   { pageDiff := pageDiff1, pageSeen := pageSeen1,
     lastSeen := lastSeen1, funnelDiff := fd1 })

/-- `getActiveNow()` (part_000:429-434): counts entries within the
5-minute window.  Its body only reads `lastSeen.values()`; it contains
no delete, so as a state transformer it returns the state unchanged. -/
def getActiveNow (nowMs : Int) (st : AggState) : Nat :=
  st.lastSeen.countP (fun e => decide (nowMs - FIVE_MIN ≤ e.2))

/-- A call to `getActiveNow()` observed together with its effect on the
hub state (none — the body never writes). -/
def getActiveNowRun (nowMs : Int) (st : AggState) : Nat × AggState :=
  (getActiveNow nowMs st, st)

end Softadastra.Analytics

namespace Softadastra.Analytics

/-! ### Trace semantics for the aggregator

Handlers run to completion on the single-threaded event loop, so a
history of the hub is a sequence of whole `onTrackEvent` calls and
whole flush ticks, each carrying the clock value at which it ran. -/

/-- One step of an analytics hub history. -/
inductive AggOp where
  | record (nowMs : Int) (evt : Option AnalyticsEvent) : AggOp
  | flush (nowMs : Int) : AggOp
deriving DecidableEq, Repr

/-- Run a history from a state, collecting every flush tick's output in
order. -/
def runTrace (urlPathname : String → Option String)
    (clients : List WsClient) :
    AggState → List AggOp → AggState × List FlushOutput
  | st, [] => (st, [])
  | st, .record nowMs evt :: ops =>
    runTrace urlPathname clients (onTrackEvent urlPathname nowMs st evt) ops
  | st, .flush nowMs :: ops =>
    let r := flushTick nowMs clients st
    let rest := runTrace urlPathname clients r.2 ops
    (rest.1, r.1 :: rest.2)

/-- Total views recorded for path `p` in a page-diff accumulator
(summing over every binding, so an accidental duplicate key would be
visible). -/
def sumViewsAt : List (String × PageCounters) → String → Nat
  | [], _ => 0
  | e :: rest, p => (if e.1 = p then e.2.views else 0) + sumViewsAt rest p

/-- Total views reported for path `p` by one list of
`top_pages_diff` rows. -/
def rowsViewsAt : List TopRow → String → Nat
  | [], _ => 0
  | r :: rest, p => (if r.path = p then r.views else 0) + rowsViewsAt rest p

/-- Views for path `p` carried by one flush's output (0 when the flush
emitted no `top_pages_diff`). -/
def outViewsAt (out : FlushOutput) (p : String) : Nat :=
  match out.topRows with
  | none => 0
  | some rows => rowsViewsAt rows p

/-- Views for path `p` over a whole list of flush outputs. -/
def flushedViewsAt : List FlushOutput → String → Nat
  | [], _ => 0
  | o :: rest, p => outViewsAt o p + flushedViewsAt rest p

/-- Whether `onTrackEvent` classifies an event as a page hit
(part_000:322: `TYPE_PAGE_HIT.has(kind)` on the lowercased
`String(evt.type || "")`). -/
def isPageHit (evt : Option AnalyticsEvent) : Bool :=
  match evt with
  | none => false
  | some e => decide (jsToLower (jsStrField e.type) ∈ TYPE_PAGE_HIT)

/-- Whether one history step is a page-hit recording for path `p`. -/
def hitsPathAt (urlPathname : String → Option String) (op : AggOp)
    (p : String) : Bool :=
  match op with
  | .record _ evt =>
    isPageHit evt &&
      (match evt with
       | none => false
       | some e => decide (normPath urlPathname e.path = p))
  | .flush _ => false

/-- Number of page-hit events for path `p` in a history. -/
def hitCount (urlPathname : String → Option String) :
    List AggOp → String → Nat
  | [], _ => 0
  | op :: rest, p =>
    (if hitsPathAt urlPathname op p then 1 else 0) + hitCount urlPathname rest p

end Softadastra.Analytics

namespace Softadastra.Analytics

/-! ### Lemmas for the page-diff accounting -/

lemma mapSet_ne_nil {β : Type} (m : List (String × β)) (k : String) (v : β) :
    mapSet m k v ≠ [] := by
  cases m with
  | nil => simp [mapSet]
  | cons e rest =>
    obtain ⟨k', v'⟩ := e
    simp only [mapSet]
    split
    all_goals simp

lemma sumViewsAt_bump (pd : List (String × PageCounters)) (path p : String) :
    sumViewsAt
      (mapSet pd path
        { (mapGet pd path).getD {} with
          views := ((mapGet pd path).getD {}).views + 1 }) p
    = sumViewsAt pd p + (if path = p then 1 else 0) := by
  induction pd with
  | nil =>
    simp only [mapSet, mapGet, sumViewsAt, Option.getD_none]
    by_cases hp : path = p <;> simp [hp, PageCounters.views]
  | cons e rest ih =>
    obtain ⟨k, v⟩ := e
    by_cases hk : k = path
    · subst hk
      simp only [mapSet, mapGet, if_pos rfl, Option.getD_some, sumViewsAt]
      by_cases hp : k = p
      all_goals simp [hp]
      all_goals omega
    · simp only [mapSet, mapGet, if_neg hk, sumViewsAt]
      rw [ih]
      omega

end Softadastra.Analytics

namespace Softadastra.Analytics

lemma sumViewsAt_onTrackEvent (urlPathname : String → Option String)
    (nowMs : Int) (st : AggState) (evt : Option AnalyticsEvent) (p : String) :
    sumViewsAt (onTrackEvent urlPathname nowMs st evt).pageDiff p
      = sumViewsAt st.pageDiff p
        + (if hitsPathAt urlPathname (AggOp.record nowMs evt) p then 1 else 0) := by
  cases evt with
  | none => simp [onTrackEvent, hitsPathAt]
  | some e =>
    by_cases hhit : jsToLower (jsStrField e.type) ∈ TYPE_PAGE_HIT
    · simp [onTrackEvent, hitsPathAt, isPageHit, hhit, sumViewsAt_bump]
    · simp [onTrackEvent, hitsPathAt, isPageHit, hhit]

lemma rowsViewsAt_map (pd : List (String × PageCounters))
    (vis : String → Nat) (p : String) :
    rowsViewsAt
      (pd.map (fun e => { path := e.1, views := e.2.views, visitors := vis e.1 }))
      p = sumViewsAt pd p := by
  induction pd with
  | nil => simp [rowsViewsAt, sumViewsAt]
  | cons e rest ih =>
    obtain ⟨k, v⟩ := e
    simp [rowsViewsAt, sumViewsAt, ih]

lemma flushTick_views (nowMs : Int) (clients : List WsClient)
    (st : AggState) (p : String) :
    outViewsAt (flushTick nowMs clients st).1 p
      + sumViewsAt (flushTick nowMs clients st).2.pageDiff p
    = sumViewsAt st.pageDiff p := by
  by_cases h : st.pageDiff.isEmpty
  · simp [flushTick, h, outViewsAt]
  · simp [flushTick, h, outViewsAt, sumViewsAt]
    exact rowsViewsAt_map st.pageDiff
      (fun k => ((mapGet st.pageSeen k).map List.length).getD 0) p

lemma runTrace_views (urlPathname : String → Option String)
    (clients : List WsClient) (p : String) :
    ∀ (ops : List AggOp) (st : AggState),
    flushedViewsAt (runTrace urlPathname clients st ops).2 p
      + sumViewsAt (runTrace urlPathname clients st ops).1.pageDiff p
    = hitCount urlPathname ops p + sumViewsAt st.pageDiff p := by
  intro ops
  induction ops with
  | nil => intro st; simp [runTrace, flushedViewsAt, hitCount]
  | cons op rest ih =>
    intro st
    cases op with
    | record nowMs evt =>
      simp only [runTrace, hitCount]
      have h1 := ih (onTrackEvent urlPathname nowMs st evt)
      have h2 := sumViewsAt_onTrackEvent urlPathname nowMs st evt p
      omega
    | flush nowMs =>
      simp only [runTrace, hitCount, flushedViewsAt, hitsPathAt,
        Bool.false_eq_true, if_false]
      have h1 := ih (flushTick nowMs clients st).2
      have h2 := flushTick_views nowMs clients st p
      omega

end Softadastra.Analytics

namespace Softadastra.Analytics

/-! ### The pageSeen / pageDiff clearing invariant -/

/-- `pageSeen` entries are only created alongside a `pageDiff` entry, so
an empty `pageDiff` forces an empty `pageSeen`; both are cleared in the
same flush step. -/
def SeenInv (st : AggState) : Prop := st.pageDiff = [] → st.pageSeen = []

lemma seenInv_init : SeenInv AggState.init := by
  intro _; rfl

lemma seenInv_onTrackEvent (urlPathname : String → Option String)
    (nowMs : Int) (st : AggState) (evt : Option AnalyticsEvent)
    (h : SeenInv st) : SeenInv (onTrackEvent urlPathname nowMs st evt) := by
  cases evt with
  | none => simpa [onTrackEvent] using h
  | some e =>
    by_cases hhit : jsToLower (jsStrField e.type) ∈ TYPE_PAGE_HIT
    · intro hpd
      exfalso
      simp only [onTrackEvent, hhit, if_pos] at hpd
      exact mapSet_ne_nil _ _ _ hpd
    · intro hpd
      simp [onTrackEvent, hhit] at hpd ⊢
      exact h hpd

lemma seenInv_flushTick (nowMs : Int) (clients : List WsClient)
    (st : AggState) (h : SeenInv st) : SeenInv (flushTick nowMs clients st).2 := by
  by_cases he : st.pageDiff.isEmpty
  · intro _
    simp only [flushTick, he, if_pos]
    exact h (List.isEmpty_iff.mp he)
  · intro _
    simp [flushTick, he]

lemma flushTick_clears (nowMs : Int) (clients : List WsClient)
    (st : AggState) (h : SeenInv st) :
    (flushTick nowMs clients st).2.pageDiff = [] ∧
      (flushTick nowMs clients st).2.pageSeen = [] := by
  by_cases he : st.pageDiff.isEmpty
  · constructor
    · simpa [flushTick, he] using List.isEmpty_iff.mp he
    · simpa [flushTick, he] using h (List.isEmpty_iff.mp he)
  · simp [flushTick, he]

lemma seenInv_runTrace (urlPathname : String → Option String)
    (clients : List WsClient) :
    ∀ (ops : List AggOp) (st : AggState), SeenInv st →
      SeenInv (runTrace urlPathname clients st ops).1 := by
  intro ops
  induction ops with
  | nil => intro st h; simpa [runTrace] using h
  | cons op rest ih =>
    intro st h
    cases op with
    | record nowMs evt =>
      exact ih _ (seenInv_onTrackEvent urlPathname nowMs st evt h)
    | flush nowMs =>
      exact ih _ (seenInv_flushTick nowMs clients st h)

lemma runTrace_append_fst (urlPathname : String → Option String)
    (clients : List WsClient) :
    ∀ (l1 l2 : List AggOp) (st : AggState),
      (runTrace urlPathname clients st (l1 ++ l2)).1
        = (runTrace urlPathname clients (runTrace urlPathname clients st l1).1 l2).1 := by
  intro l1
  induction l1 with
  | nil => intro l2 st; simp [runTrace]
  | cons op rest ih =>
    intro l2 st
    cases op with
    | record nowMs evt => simp [runTrace, ih]
    | flush nowMs => simp [runTrace, ih]

end Softadastra.Analytics

namespace Softadastra.Analytics

/-! ### Claim theorems for the analytics hub -/

/-- C1: Page-diff flush atomicity.  Over every history of recordEvent
calls interleaved with flush ticks: the views reported for a path across
all flush outputs plus the views still pending in the accumulator equal
exactly the number of page-hit events recorded for that path — so each
hit is counted in exactly one flush (an event recorded after a flush's
snapshot sits in the cleared accumulator feeding the next flush, and
nothing is double-counted); moreover a flush at the end of any history
leaves the view-count map and the per-path visitor sets empty, cleared
together in the same step. -/
theorem c1_page_diff_flush_atomicity
    (urlPathname : String → Option String) (clients : List WsClient)
    (ops : List AggOp) (p : String) (nowMs : Int) :
    flushedViewsAt (runTrace urlPathname clients AggState.init ops).2 p
        + sumViewsAt (runTrace urlPathname clients AggState.init ops).1.pageDiff p
      = hitCount urlPathname ops p
    ∧ (runTrace urlPathname clients AggState.init
        (ops ++ [AggOp.flush nowMs])).1.pageDiff = []
    ∧ (runTrace urlPathname clients AggState.init
        (ops ++ [AggOp.flush nowMs])).1.pageSeen = [] := by
  have hinv := seenInv_runTrace urlPathname clients ops AggState.init seenInv_init
  have hclear := flushTick_clears nowMs clients
    (runTrace urlPathname clients AggState.init ops).1 hinv
  refine ⟨?_, ?_, ?_⟩
  · have h := runTrace_views urlPathname clients p ops AggState.init
    simpa [AggState.init, sumViewsAt] using h
  · rw [runTrace_append_fst]
    simpa [runTrace] using hclear.1
  · rw [runTrace_append_fst]
    simpa [runTrace] using hclear.2

/-- C2 counterexample: at clock 600000 ms a visitor last seen at 0 ms is
strictly older than the 5-minute window; the timer sweep deletes it from
the Last-Seen Table, but a getActiveNow() call leaves the table exactly
as it was — the eviction side-effect the claim asserts does not
happen. -/
theorem c2_get_active_now_counterexample :
    ((getActiveNowRun 600000 { lastSeen := [("v1", 0)] }).2).lastSeen
        = [("v1", 0)]
    ∧ (0 : Int) < 600000 - FIVE_MIN
    ∧ (flushTick 600000 [] { lastSeen := [("v1", 0)] }).2.lastSeen = [] := by
  refine ⟨rfl, by norm_num [FIVE_MIN], by decide⟩

/-- C2 amended: getActiveNow() returns the count of visitors whose
last-seen timestamp is within the 5-minute window — the same count the
timer-driven sweep broadcasts — but it performs no eviction: the call
leaves the hub state, in particular the Last-Seen Table, untouched.
Only the timer-driven flush removes the stale entries. -/
theorem c2_get_active_now_amended (nowMs : Int) (clients : List WsClient)
    (st : AggState) :
    (getActiveNowRun nowMs st).1 = (flushTick nowMs clients st).1.activeNowCount
    ∧ (getActiveNowRun nowMs st).2 = st
    ∧ (flushTick nowMs clients st).2.lastSeen
        = st.lastSeen.filter (fun e => decide (nowMs - FIVE_MIN ≤ e.2)) := by
  refine ⟨?_, rfl, ?_⟩
  · simp [getActiveNowRun, getActiveNow, flushTick, List.countP_eq_length_filter]
  · simp [flushTick]

/-- The page-hit classifier of the module-level — shadowed, hence never
called — onTrackEvent copy at the top of part_000 (lines 18-19):
`TYPE_PAGE_HIT.has(kind) || (kind === "event" && name === "pageview")`,
introduced there under the comment "accepte aussi event+pageview". -/
def isPageHitTopLevel (kind name : String) : Bool :=
  decide (kind ∈ TYPE_PAGE_HIT) || (kind == "event" && name == "pageview")

/-- C3: the live exported onTrackEvent (part_000:311-350) does not treat
an event of kind "event" with name "pageview" as a page hit — after
ingesting one, the Page Diff Accumulator is still empty (and the funnel
is untouched, "pageview" not being a funnel name) — whereas the
shadowed module-level copy of the classifier in the same file does
accept it, as the claim and the spec state. -/
theorem c3_event_pageview_divergence :
    (onTrackEvent (fun _ => none) 1000 AggState.init
        (some { type := some "event", name := some "pageview",
                path := some "/p", anon_id := some "a" })).pageDiff = []
    ∧ (onTrackEvent (fun _ => none) 1000 AggState.init
        (some { type := some "event", name := some "pageview",
                path := some "/p", anon_id := some "a" })).funnelDiff = {}
    ∧ isPageHitTopLevel "event" "pageview" = true := by
  refine ⟨by decide, by decide, by decide⟩

/-- C4: Funnel broadcast-and-reset.  A flush emits a funnel_diff frame
carrying the accumulated counters iff at least one counter is non-zero;
after any flush all three counters are zero; consequently a second flush
with no intervening events emits no funnel_diff frame at all. -/
theorem c4_funnel_broadcast_reset (nowMs nowMs2 : Int)
    (clients clients2 : List WsClient) (st : AggState) :
    ((flushTick nowMs clients st).1.funnelMsg = some st.funnelDiff
        ↔ (st.funnelDiff.product_view ≠ 0 ∨ st.funnelDiff.add_to_cart ≠ 0 ∨
           st.funnelDiff.checkout_start ≠ 0))
    ∧ (flushTick nowMs clients st).2.funnelDiff = {}
    ∧ (flushTick nowMs2 clients2 (flushTick nowMs clients st).2).1.funnelMsg
        = none := by
  by_cases hz : st.funnelDiff.product_view ≠ 0 ∨ st.funnelDiff.add_to_cart ≠ 0 ∨
      st.funnelDiff.checkout_start ≠ 0
  · refine ⟨by simp [flushTick, hz], by simp [flushTick, hz], ?_⟩
    simp [flushTick, hz]
  · have hfd : st.funnelDiff = {} := by
      push_neg at hz
      obtain ⟨h1, h2, h3⟩ := hz
      have he : st.funnelDiff
          = ⟨st.funnelDiff.product_view, st.funnelDiff.add_to_cart,
             st.funnelDiff.checkout_start⟩ := rfl
      rw [he, h1, h2, h3]
    refine ⟨?_, by simp [flushTick, hz, hfd], ?_⟩
    · constructor
      · intro h
        exfalso
        simp [flushTick, hz] at h
      · intro h
        exact absurd h hz
    · simp [flushTick, hz, hfd]

end Softadastra.Analytics

namespace Softadastra.Analytics

/-! ### C5: broadcast failure isolation -/

/-- The indices (from `i`) of clients whose readyState is 1 — the
sockets one broadcast loop is meant to reach. -/
def openIndicesFrom (i : Nat) : List WsClient → List Nat
  | [] => []
  | c :: cs =>
    if c.readyState = 1 then i :: openIndicesFrom (i + 1) cs
    else openIndicesFrom (i + 1) cs

/-- The indices of all open clients. -/
def openIndices (cs : List WsClient) : List Nat := openIndicesFrom 0 cs

lemma sendLoopFrom_no_fail (cs : List WsClient) :
    ∀ i : Nat, (∀ c ∈ cs, c.readyState = 1 → c.failing = false) →
      sendLoopFrom i cs = (openIndicesFrom i cs, false) := by
  induction cs with
  | nil => intro i _; rfl
  | cons c rest ih =>
    intro i h
    by_cases ho : c.readyState = 1
    · have hf : c.failing = false := h c (by simp) ho
      simp [sendLoopFrom, openIndicesFrom, ho, hf,
        ih (i + 1) (fun d hd => h d (by simp [hd]))]
    · simp [sendLoopFrom, openIndicesFrom, ho,
        ih (i + 1) (fun d hd => h d (by simp [hd]))]

/-- C5 counterexample: two open analytics sockets where the first send
throws.  The exception aborts the `forEach` loop before it reaches the
second socket, so within that same broadcast the second open socket is
never attempted — contradicting the claim that a send failure on one
socket does not prevent any other socket from being attempted. -/
theorem c5_broadcast_abort_counterexample :
    broadcastAttempts
        [{ readyState := 1, failing := true },
         { readyState := 1, failing := false }] = [0]
    ∧ (1 : Nat) ∉ broadcastAttempts
        [{ readyState := 1, failing := true },
         { readyState := 1, failing := false }]
    ∧ (flushTick 0
        [{ readyState := 1, failing := true },
         { readyState := 1, failing := false }] AggState.init).1.activeNowSent
      = [0] := by
  refine ⟨rfl, by decide, rfl⟩

/-- C5 amended: a send failure is swallowed by the try/catch around each
broadcast, so it neither escapes the flush tick nor affects the tick's
state transition or the later broadcast sections, and future ticks keep
firing — but because the try/catch wraps the whole `forEach` loop rather
than each send, the sockets after the first failing open socket are not
attempted in that same broadcast; when no open socket fails, every open
socket is attempted. -/
theorem c5_broadcast_failure_isolation_amended (nowMs : Int)
    (clients : List WsClient) (st : AggState) :
    ((∀ c ∈ clients, c.readyState = 1 → c.failing = false) →
        (flushTick nowMs clients st).1.activeNowSent = openIndices clients)
    ∧ (flushTick nowMs clients st).2 = (flushTick nowMs [] st).2
    ∧ ((flushTick nowMs clients st).1.funnelMsg.isSome →
        (flushTick nowMs clients st).1.funnelSent = broadcastAttempts clients)
    ∧ (∀ (c : WsClient) (cs : List WsClient), c.readyState = 1 →
        c.failing = true → broadcastAttempts (c :: cs) = [0]) := by
  refine ⟨?_, ?_, ?_, ?_⟩
  · intro h
    simp [flushTick, broadcastAttempts, openIndices,
      sendLoopFrom_no_fail clients 0 h]
  · rfl
  · intro h
    by_cases hz : st.funnelDiff.product_view ≠ 0 ∨ st.funnelDiff.add_to_cart ≠ 0 ∨
        st.funnelDiff.checkout_start ≠ 0
    · simp [flushTick, hz]
    · exfalso
      simp [flushTick, hz] at h
  · intro c cs ho hf
    simp [broadcastAttempts, sendLoopFrom, ho, hf]

/-- Closed witness for the amended C5 theorem: with three sockets (open,
closed, open) and none failing, the active-now broadcast attempts
exactly the open sockets 0 and 2; with a failing open socket at the
head, only index 0 is attempted. -/
theorem c5_broadcast_failure_isolation_witness :
    (flushTick 0
        [{ readyState := 1, failing := false }, { readyState := 0, failing := false },
         { readyState := 1, failing := false }] AggState.init).1.activeNowSent
      = openIndices
        [{ readyState := 1, failing := false }, { readyState := 0, failing := false },
         { readyState := 1, failing := false }]
    ∧ broadcastAttempts
        [{ readyState := 1, failing := true }, { readyState := 1, failing := false }]
      = [0] :=
  ⟨(c5_broadcast_failure_isolation_amended 0 _ AggState.init).1 (by decide),
   (c5_broadcast_failure_isolation_amended 0 [] AggState.init).2.2.2
     { readyState := 1, failing := true }
     [{ readyState := 1, failing := false }] rfl rfl⟩

end Softadastra.Analytics

namespace Softadastra

/-! ### Association-list lemmas shared by the hub registries -/

lemma mapGet_mapSet_self {β : Type} (m : List (String × β)) (k : String) (v : β) :
    mapGet (mapSet m k v) k = some v := by
  induction m with
  | nil => simp [mapSet, mapGet]
  | cons e rest ih =>
    obtain ⟨k', v'⟩ := e
    by_cases hk : k' = k
    · simp [mapSet, mapGet, hk]
    · simp [mapSet, mapGet, hk, ih]

lemma mapGet_eq_none_of_not_mem {β : Type} (m : List (String × β)) (k : String)
    (h : k ∉ m.map Prod.fst) : mapGet m k = none := by
  induction m with
  | nil => rfl
  | cons e rest ih =>
    obtain ⟨k', v'⟩ := e
    simp only [List.map_cons, List.mem_cons] at h
    push_neg at h
    have hne : ¬ k' = k := fun hc => h.1 hc.symm
    simp [mapGet, hne, ih h.2]

lemma mapGet_mapDelete_self {β : Type} (m : List (String × β)) (k : String)
    (h : (m.map Prod.fst).Nodup) : mapGet (mapDelete m k) k = none := by
  induction m with
  | nil => rfl
  | cons e rest ih =>
    obtain ⟨k', v'⟩ := e
    simp only [List.map_cons, List.nodup_cons] at h
    by_cases hk : k' = k
    · subst hk
      simp only [mapDelete, if_pos rfl]
      exact mapGet_eq_none_of_not_mem rest k' h.1
    · simp [mapDelete, mapGet, hk, ih h.2]

lemma mapGet_mapDelete_ne {β : Type} (m : List (String × β)) (k k' : String)
    (hne : k' ≠ k) : mapGet (mapDelete m k) k' = mapGet m k' := by
  induction m with
  | nil => rfl
  | cons e rest ih =>
    obtain ⟨a, b⟩ := e
    by_cases ha : a = k
    · subst ha
      have hak : ¬ a = k' := fun hc => hne (hc.symm.trans rfl)
      simp [mapDelete, mapGet, hak]
    · by_cases ha' : a = k'
      · simp [mapDelete, mapGet, ha, ha', hne]
      · simp [mapDelete, mapGet, ha, ha', ih]

end Softadastra

namespace Softadastra.Chat

open Softadastra

/-! ### ws/chat.js (src/unnamed/part_020) -/

/-- A row of the `chat_threads` table. -/
structure ChatThread where
  id : Nat
  user1_id : Int
  user2_id : Int
deriving DecidableEq, Repr

/-- The `chat_threads` table with its auto-increment counter. -/
structure ThreadDB where
  threads : List ChatThread := []
  nextId : Nat := 1
deriving DecidableEq, Repr

/-- `ensureThreadId(sender_id, receiver_id)` (part_020:403-416):
canonicalize the pair to (min, max), return the id of the first matching
row (`SELECT ... LIMIT 1`), else insert a new (min, max) row and return
its auto-increment id. -/
def ensureThreadId (db : ThreadDB) (sender_id receiver_id : Int) :
    Nat × ThreadDB :=
  let a := min sender_id receiver_id
  let b := max sender_id receiver_id
  match db.threads.find? (fun t => t.user1_id == a && t.user2_id == b) with
  | some t => (t.id, db)
  | none =>
    (db.nextId,
     { threads := db.threads ++ [{ id := db.nextId, user1_id := a, user2_id := b }],
       nextId := db.nextId + 1 })

/-- C6: Thread canonicalization is symmetric — for two distinct numeric
identities, resolving-or-creating a thread for (A,B) and for (B,A)
returns the same thread id and leaves the database in the same state,
because the pair is canonicalized to (min, max) before both the lookup
and the insertion. -/
theorem c6_thread_canonicalization_symmetric (db : ThreadDB) (A B : Int)
    (h : A ≠ B) : ensureThreadId db A B = ensureThreadId db B A := by
  simp only [ensureThreadId, min_comm A B, max_comm A B]

/-- Witness for C6 at identities 1 and 2 on an empty database. -/
theorem c6_thread_canonicalization_witness :
    (1 : Int) ≠ 2 ∧ ensureThreadId {} 1 2 = ensureThreadId {} 2 1 :=
  ⟨by decide, c6_thread_canonicalization_symmetric {} 1 2 (by decide)⟩

end Softadastra.Chat

namespace Softadastra.Chat

open Softadastra

/-- One chat socket: a surrogate identity for the JS socket object (used
for the `client !== ws` checks and as registry value), its readyState,
and the `ws.user_id` expando the auth handler sets. -/
structure ChatConn where
  connId : Nat
  readyState : Nat := 1
  user_id : Option String := none
deriving DecidableEq, Repr

/-- The `connectedUsers` registry (ws/userState.js): identity →
connId of the registered socket. -/
abbrev Registry := List (String × Nat)

/-- Frames the auth and close handlers emit. -/
inductive ChatFrame where
  | auth_ok (user_id : String) (ts : Int)
  | nav_counts (notifications messages : Nat)
  | user_online (user_id : String)
  | user_offline (user_id : String)
deriving DecidableEq, Repr

/-- Result of the auth branch: the mutated socket, the mutated registry,
the frames safeSend-ed to the authenticating socket itself, and the
(connId, frame) pairs pushed to the other clients. -/
structure AuthResult where
  ws : ChatConn
  registry : Registry
  toSelf : List ChatFrame
  toOthers : List (Nat × ChatFrame)
deriving DecidableEq, Repr

/-- The `auth` branch of the chat message handler (part_020:450-470):
`ws.user_id = String(data.user_id); connectedUsers.set(ws.user_id, ws)`,
then safeSend `auth_ok` and (after the getNavCounts DB read, passed in
as `counts`) `nav_counts` to the socket itself — safeSend drops both
when the socket is not open — then `user_online` to every other open
client.  `ts` stands for Date.now().  There is no validation and no
rejection path: every value of `data.user_id`, including an absent
field (undefined), is accepted and coerced with String(...). -/
def authHandler (reg : Registry) (clients : List ChatConn) (ws : ChatConn)
    (user_id : JsVal) (ts : Int) (counts : Nat × Nat) : AuthResult :=
  let uid := jsToString user_id
  { ws := { ws with user_id := some uid },
    registry := mapSet reg uid ws.connId,
    toSelf :=
      if ws.readyState = 1 then
        [ChatFrame.auth_ok uid ts, ChatFrame.nav_counts counts.1 counts.2]
      else [],
    toOthers :=
      (clients.filter (fun c => c.readyState == 1 && c.connId != ws.connId)).map
        (fun c => (c.connId, ChatFrame.user_online uid)) }

/-- The close handler (part_020:661-671): `if (ws.user_id)` — a truthy
identity — then `connectedUsers.delete(ws.user_id)` unconditionally
(there is no check that the registry entry still points at this socket)
and `user_offline` is safeSend-ed to every other open client; sockets
without a truthy identity leave the registry untouched and broadcast
nothing. -/
def closeHandler (reg : Registry) (clients : List ChatConn) (ws : ChatConn) :
    Registry × List (Nat × ChatFrame) :=
  if strTruthy ws.user_id then
    (mapDelete reg (jsStrField ws.user_id),
     (clients.filter (fun c => c.readyState == 1 && c.connId != ws.connId)).map
       (fun c => (c.connId, ChatFrame.user_offline (jsStrField ws.user_id))))
  else (reg, [])

/-- C7 counterexample: socket 1 authenticates as identity "1", then
socket 2 authenticates as the same identity — the registry now points
at socket 2.  When the stale socket 1 closes, the close handler deletes
identity "1" anyway, so the newer socket 2 loses its registry entry,
contradicting the claimed only-if-it-still-points-here guard. -/
theorem c7_close_deletes_newer_entry_counterexample :
    mapGet ((authHandler
        (authHandler [] [] { connId := 1 } (JsVal.num 1) 0 (0, 0)).registry
        [] { connId := 2 } (JsVal.num 1) 0 (0, 0)).registry) "1" = some 2
    ∧ mapGet (closeHandler
        (authHandler
          (authHandler [] [] { connId := 1 } (JsVal.num 1) 0 (0, 0)).registry
          [] { connId := 2 } (JsVal.num 1) 0 (0, 0)).registry
        [] (authHandler [] [] { connId := 1 } (JsVal.num 1) 0 (0, 0)).ws).1 "1"
      = none := by
  refine ⟨by decide, by decide⟩

/-- C7 amended: when a chat connection with a truthy identity closes,
that identity's key is deleted from the Presence Registry
unconditionally — also when the registry entry points at a different
(newer) connection — and a user_offline presence event goes to exactly
the other open connections; the entry for every other identity is
untouched. -/
theorem c7_close_handler_amended (reg : Registry) (clients : List ChatConn)
    (ws : ChatConn) (uid : String) (h : ws.user_id = some uid)
    (hne : uid ≠ "") (hkeys : (reg.map Prod.fst).Nodup) :
    (closeHandler reg clients ws).1 = mapDelete reg uid
    ∧ mapGet (closeHandler reg clients ws).1 uid = none
    ∧ (∀ k, k ≠ uid → mapGet (closeHandler reg clients ws).1 k = mapGet reg k)
    ∧ (∀ entry, entry ∈ (closeHandler reg clients ws).2 ↔
        ∃ c ∈ clients, c.readyState = 1 ∧ c.connId ≠ ws.connId ∧
          entry = (c.connId, ChatFrame.user_offline uid)) := by
  have htr : strTruthy ws.user_id = true := by simp [strTruthy, h, hne]
  have hfld : jsStrField ws.user_id = uid := by simp [jsStrField, h]
  refine ⟨?_, ?_, ?_, ?_⟩
  · simp [closeHandler, htr, hfld]
  · simp [closeHandler, htr, hfld, mapGet_mapDelete_self reg uid hkeys]
  · intro k hk
    simp [closeHandler, htr, hfld, mapGet_mapDelete_ne reg uid k hk]
  · intro entry
    simp only [closeHandler, htr, if_pos, hfld, List.mem_map, List.mem_filter]
    constructor
    · rintro ⟨c, ⟨hc, hb⟩, rfl⟩
      simp only [Bool.and_eq_true, beq_iff_eq, bne_iff_ne] at hb
      exact ⟨c, hc, hb.1, hb.2, rfl⟩
    · rintro ⟨c, hc, h1, h2, rfl⟩
      refine ⟨c, ⟨hc, ?_⟩, rfl⟩
      simp [h1, h2]

/-- Closed witness for the amended C7 theorem: with the registry
pointing identity "1" at socket 2 and socket 2 the only other open
client, socket 1 closing wipes the entry and socket 2 receives the
user_offline frame. -/
theorem c7_close_handler_witness :
    mapGet (closeHandler [("1", 2)]
        [{ connId := 2, user_id := some "1" }]
        { connId := 1, user_id := some "1" }).1 "1" = none
    ∧ (2, ChatFrame.user_offline "1") ∈ (closeHandler [("1", 2)]
        [{ connId := 2, user_id := some "1" }]
        { connId := 1, user_id := some "1" }).2 :=
  ⟨(c7_close_handler_amended [("1", 2)] [{ connId := 2, user_id := some "1" }]
      { connId := 1, user_id := some "1" } "1" rfl (by decide) (by decide)).2.1,
   ((c7_close_handler_amended [("1", 2)] [{ connId := 2, user_id := some "1" }]
      { connId := 1, user_id := some "1" } "1" rfl (by decide) (by decide)).2.2.2
      (2, ChatFrame.user_offline "1")).mpr
    ⟨{ connId := 2, user_id := some "1" }, by simp, rfl, by decide, rfl⟩⟩

/-- C10: the chat auth handler never rejects — for every inbound auth
frame, whatever `user_id` holds (absent, null, numeric, string), the
handler stores the String(...) coercion as the socket identity, inserts
that key into the Presence Registry pointing at this socket, and (when
the socket is open) replies auth_ok; an auth frame with no user_id field
registers the literal identity "undefined". -/
theorem c10_auth_never_rejects (reg : Registry) (clients : List ChatConn)
    (ws : ChatConn) (v : JsVal) (ts : Int) (counts : Nat × Nat) :
    (authHandler reg clients ws v ts counts).ws.user_id = some (jsToString v)
    ∧ mapGet (authHandler reg clients ws v ts counts).registry (jsToString v)
        = some ws.connId
    ∧ (ws.readyState = 1 →
        ChatFrame.auth_ok (jsToString v) ts
          ∈ (authHandler reg clients ws v ts counts).toSelf)
    ∧ jsToString JsVal.undef = "undefined"
    ∧ mapGet (authHandler reg clients ws JsVal.undef ts counts).registry
        "undefined" = some ws.connId := by
  refine ⟨rfl, ?_, ?_, rfl, ?_⟩
  · simp [authHandler, mapGet_mapSet_self]
  · intro hop
    simp [authHandler, hop]
  · have : jsToString JsVal.undef = "undefined" := rfl
    simpa [authHandler, this] using
      mapGet_mapSet_self reg "undefined" ws.connId

/-- Closed witness for C10: an auth frame with no user_id on open
socket 7 registers "undefined" at socket 7 and gets an auth_ok back. -/
theorem c10_auth_never_rejects_witness :
    mapGet (authHandler [] [] { connId := 7 } JsVal.undef 0 (0, 0)).registry
        "undefined" = some 7
    ∧ ChatFrame.auth_ok "undefined" 0
        ∈ (authHandler [] [] { connId := 7 } JsVal.undef 0 (0, 0)).toSelf :=
  ⟨(c10_auth_never_rejects [] [] { connId := 7 } JsVal.undef 0 (0, 0)).2.2.2.2,
   (c10_auth_never_rejects [] [] { connId := 7 } JsVal.undef 0 (0, 0)).2.2.1 rfl⟩

end Softadastra.Chat

namespace Softadastra.Likes

open Softadastra

/-! ### Likes hub (src/ws/index.js) and like-update fan-out
(src/routes/likes.js) -/

/-- A product id as stored in a connection's subscription Set — a JS Set
distinguishes the number 42 from the string "42", which is why the
fan-out dual-checks both forms. -/
inductive SubId where
  | num (n : Int)
  | str (s : String)
deriving DecidableEq, Repr

/-- One likes-hub socket: identity surrogate, readyState, and its
`ws.subscribedProducts` Set (src/ws/index.js:82, created empty on
connect). -/
structure LikeConn where
  connId : Nat
  readyState : Nat := 1
  subscribedProducts : List SubId := []
deriving DecidableEq, Repr

/-- Frames of the likes hub. -/
inductive LikeFrame where
  | subscribed (product_id : Int)
  | unsubscribed (product_id : Int)
  | update (product_id : Int) (likes_count : Int)
deriving DecidableEq, Repr

/-- The `like:subscribe` branch (src/ws/index.js:104-118): the inbound
product_id is normalized with `Number(msg?.product_id)` and the branch
runs only when `Number.isInteger(id)` holds; the numeric id is added to
the Set, then a like:subscribed ack and a snapshot like:update (count
read from the DB, passed in here) are sent back. -/
def likeSubscribeHandler (c : LikeConn) (product_id : JsVal) (count : Int) :
    LikeConn × List LikeFrame :=
  match jsToNumber product_id with
  | none => (c, [])
  | some id =>
    ({ c with subscribedProducts :=
        if SubId.num id ∈ c.subscribedProducts then c.subscribedProducts
        else c.subscribedProducts ++ [SubId.num id] },
     [LikeFrame.subscribed id, LikeFrame.update id count])

/-- `broadcastLikeUpdate(productId, likesCount)`
(src/routes/likes.js:50-69): for each socket on the hub, skip it unless
readyState is 1, then push the update iff its subscription Set contains
the numeric id or its String(...) form (`subs?.has(pid) ||
subs?.has(String(pid))`).  Each send is individually wrapped in
try/catch, so the reached set does not depend on send failures.  The
route callers pass an integer-validated product id, on which
`Number(productId)` is the identity. -/
def broadcastLikeUpdate (clients : List LikeConn) (productId : Int)
    (likesCount : Int) : List (Nat × LikeFrame) :=
  (clients.filter (fun ws => decide (ws.readyState = 1 ∧
      (SubId.num productId ∈ ws.subscribedProducts ∨
       SubId.str (toString productId) ∈ ws.subscribedProducts)))).map
    (fun ws => (ws.connId, LikeFrame.update productId likesCount))

/-- C8: Like-update fan-out membership — a (connId, frame) pair is
emitted by a like-toggle broadcast of product P with count N exactly
when some open connection's subscription set contains P as a number or
as its decimal string, and the frame is like:update P N; a subscription
sent as the string "s" for a numeric string s is stored as the number it
denotes, so it matches a later numeric toggle; and a connection whose
subscriptions all differ from P (in both forms) never receives the
frame (given connIds identify connections). -/
theorem c8_like_update_fanout_membership :
    (∀ (clients : List LikeConn) (pid n : Int) (entry : Nat × LikeFrame),
      entry ∈ broadcastLikeUpdate clients pid n ↔
        ∃ c ∈ clients, c.readyState = 1 ∧
          (SubId.num pid ∈ c.subscribedProducts ∨
           SubId.str (toString pid) ∈ c.subscribedProducts) ∧
          entry = (c.connId, LikeFrame.update pid n))
    ∧ (∀ (c : LikeConn) (s : String) (k count : Int),
        jsStringToNumber s = some k →
          SubId.num k
            ∈ (likeSubscribeHandler c (JsVal.str s) count).1.subscribedProducts)
    ∧ (∀ (clients : List LikeConn) (pid n : Int) (c : LikeConn),
        c ∈ clients →
        (∀ d ∈ clients, d.connId = c.connId → d = c) →
        ¬(SubId.num pid ∈ c.subscribedProducts ∨
          SubId.str (toString pid) ∈ c.subscribedProducts) →
        (c.connId, LikeFrame.update pid n) ∉ broadcastLikeUpdate clients pid n) := by
  have hmem : ∀ (clients : List LikeConn) (pid n : Int) (entry : Nat × LikeFrame),
      entry ∈ broadcastLikeUpdate clients pid n ↔
        ∃ c ∈ clients, c.readyState = 1 ∧
          (SubId.num pid ∈ c.subscribedProducts ∨
           SubId.str (toString pid) ∈ c.subscribedProducts) ∧
          entry = (c.connId, LikeFrame.update pid n) := by
    intro clients pid n entry
    simp only [broadcastLikeUpdate, List.mem_map, List.mem_filter,
      decide_eq_true_eq]
    constructor
    · rintro ⟨c, ⟨hc, h1, h2⟩, rfl⟩
      exact ⟨c, hc, h1, h2, rfl⟩
    · rintro ⟨c, hc, h1, h2, rfl⟩
      exact ⟨c, ⟨hc, h1, h2⟩, rfl⟩
  refine ⟨hmem, ?_, ?_⟩
  · intro c s k count hk
    simp only [likeSubscribeHandler, jsToNumber, hk]
    by_cases hin : SubId.num k ∈ c.subscribedProducts
    · simp [hin]
    · simp [hin]
  · intro clients pid n c hc huniq hnot hmem2
    obtain ⟨d, hd, _, hsubs, heq⟩ := (hmem clients pid n _).mp hmem2
    have hdc : d = c := huniq d hd (by
      have := congrArg Prod.fst heq
      simpa using this.symm)
    exact hnot (hdc ▸ hsubs)

/-- Closed witness for C8: a connection that subscribed with the string
"42" holds the number 42 in its subscription set; with one such open
connection and one open connection subscribed only to product 8, a
toggle of numeric 42 reaches exactly the first. -/
theorem c8_like_update_fanout_witness :
    SubId.num 42
      ∈ (likeSubscribeHandler { connId := 1 } (JsVal.str "42") 0).1.subscribedProducts
    ∧ (1, LikeFrame.update 42 17)
        ∈ broadcastLikeUpdate
          [{ connId := 1, subscribedProducts := [SubId.num 42] },
           { connId := 2, subscribedProducts := [SubId.num 8] }] 42 17
    ∧ (2, LikeFrame.update 42 17)
        ∉ broadcastLikeUpdate
          [{ connId := 1, subscribedProducts := [SubId.num 42] },
           { connId := 2, subscribedProducts := [SubId.num 8] }] 42 17 :=
  ⟨c8_like_update_fanout_membership.2.1 { connId := 1 } "42" 42 0 (by decide),
   (c8_like_update_fanout_membership.1
      [{ connId := 1, subscribedProducts := [SubId.num 42] },
       { connId := 2, subscribedProducts := [SubId.num 8] }] 42 17
      (1, LikeFrame.update 42 17)).mpr
    ⟨{ connId := 1, subscribedProducts := [SubId.num 42] }, by simp,
      rfl, Or.inl (by decide), rfl⟩,
   fun hmem => by
    obtain ⟨c, hc, _, hsubs, heq⟩ :=
      (c8_like_update_fanout_membership.1
        [{ connId := 1, subscribedProducts := [SubId.num 42] },
         { connId := 2, subscribedProducts := [SubId.num 8] }] 42 17
        (2, LikeFrame.update 42 17)).mp hmem
    simp only [List.mem_cons, List.mem_singleton] at hc
    rcases hc with rfl | rfl | hc
    · exact absurd (congrArg Prod.fst heq) (by decide)
    · revert hsubs
      decide
    · exact absurd hc (List.not_mem_nil _)⟩

end Softadastra.Likes

namespace Softadastra.Ticket

open Softadastra

/-! ### WebSocket tickets (src/utils/ws-ticket.js) -/

/-- `TICKET_TTL_SEC` (ws-ticket.js:55). -/
def TICKET_TTL_SEC : Int := 60

/-- JS `s.split(".")`: split at every dot, keeping empty segments
(modelled over the character list). -/
def splitOnDot (s : String) : List String :=
  (s.data.splitOn '.').map (fun g => String.mk g)

/-- The decoded result `{ id, userId: Number(userId), exp }` returned on
success (ws-ticket.js:130); `userId` is the Number(...) coercion of the
second field (none models NaN). -/
structure VerifiedTicket where
  id : String
  userId : Option Int
  exp : Int
deriving DecidableEq, Repr

/-- `createWsTicket(userId, secret)` (ws-ticket.js:91-99), with the
random uuid `id` and the clock `nowSec` passed in, and HMAC-SHA256 as an
abstract keyed hash `sign input secret`. -/
def createWsTicket (sign : String → String → String) (id : String)
    (userId : String) (nowSec : Int) (secret : String) : String :=
  let exp := nowSec + TICKET_TTL_SEC
  let payload := id ++ "." ++ userId ++ "." ++ toString exp
  payload ++ "." ++ sign payload secret

/-- `verifyWsTicket(ticket, secret)` (ws-ticket.js:113-131): split on
".", require exactly four fields; `exp = Number(expStr)` must be truthy
(not NaN, not 0) and not below the clock; recompute the signature over
`id.userId.exp` (with exp re-stringified from the number) and require
byte equality (the length check plus timingSafeEqual amounts to string
equality); every failure returns the same bare null. -/
def verifyWsTicket (sign : String → String → String) (nowSec : Int)
    (secret : String) (ticket : String) : Option VerifiedTicket :=
  match splitOnDot ticket with
  | [id, userId, expStr, sig] =>
    match jsStringToNumber expStr with
    | none => none
    | some exp =>
      if exp = 0 then none
      else if exp < nowSec then none
      else
        if sign (id ++ "." ++ userId ++ "." ++ toString exp) secret = sig then
          some ⟨id, jsStringToNumber userId, exp⟩
        else none
  | _ => none

/-- C9: all three verification failure modes — wrong number of
dot-separated fields, expiry strictly before the clock, recomputed
signature mismatch — return the same bare null, indistinguishable to
the caller; and a decoded result is returned only when the ticket has
exactly four fields, a truthy numeric expiry at or after the clock, and
a matching recomputed signature, the result being
`{id, userId: Number(userId), exp}`. -/
theorem c9_ticket_verification_indistinguishable
    (sign : String → String → String) (nowSec : Int) (secret : String) :
    (∀ ticket : String, (splitOnDot ticket).length ≠ 4 →
        verifyWsTicket sign nowSec secret ticket = none)
    ∧ (∀ (ticket id userId expStr sig : String) (exp : Int),
        splitOnDot ticket = [id, userId, expStr, sig] →
        jsStringToNumber expStr = some exp →
        exp < nowSec →
        verifyWsTicket sign nowSec secret ticket = none)
    ∧ (∀ (ticket id userId expStr sig : String) (exp : Int),
        splitOnDot ticket = [id, userId, expStr, sig] →
        jsStringToNumber expStr = some exp →
        sign (id ++ "." ++ userId ++ "." ++ toString exp) secret ≠ sig →
        verifyWsTicket sign nowSec secret ticket = none)
    ∧ (∀ (ticket : String) (r : VerifiedTicket),
        verifyWsTicket sign nowSec secret ticket = some r →
        ∃ (id userId expStr sig : String) (exp : Int),
          splitOnDot ticket = [id, userId, expStr, sig]
          ∧ jsStringToNumber expStr = some exp ∧ exp ≠ 0 ∧ nowSec ≤ exp
          ∧ sign (id ++ "." ++ userId ++ "." ++ toString exp) secret = sig
          ∧ r = ⟨id, jsStringToNumber userId, exp⟩) := by
  refine ⟨?_, ?_, ?_, ?_⟩
  · intro t h
    rcases hsp : splitOnDot t with _ | ⟨a, _ | ⟨b, _ | ⟨c, _ | ⟨d, _ | ⟨e, tl⟩⟩⟩⟩⟩
    all_goals simp_all [verifyWsTicket]
  · intro t id u e s exp hsp hnum hlt
    simp only [verifyWsTicket, hsp, hnum]
    by_cases h0 : exp = 0
    · simp [h0]
    · simp [h0, hlt]
  · intro t id u e s exp hsp hnum hne
    simp only [verifyWsTicket, hsp, hnum]
    by_cases h0 : exp = 0
    · simp [h0]
    · by_cases hlt : exp < nowSec
      · simp [h0, hlt]
      · simp [h0, hlt, hne]
  · intro t r hv
    rcases hsp : splitOnDot t with _ | ⟨a, _ | ⟨b, _ | ⟨c, _ | ⟨d, _ | ⟨e, tl⟩⟩⟩⟩⟩
    all_goals
      simp only [verifyWsTicket, hsp] at hv
    · exact absurd hv (by simp)
    · exact absurd hv (by simp)
    · exact absurd hv (by simp)
    · exact absurd hv (by simp)
    · cases hnum : jsStringToNumber c with
      | none => simp [hnum] at hv
      | some exp =>
        simp only [hnum] at hv
        by_cases h0 : exp = 0
        · rw [if_pos h0] at hv
          exact absurd hv (by simp)
        · rw [if_neg h0] at hv
          by_cases hlt : exp < nowSec
          · rw [if_pos hlt] at hv
            exact absurd hv (by simp)
          · rw [if_neg hlt] at hv
            by_cases hsig : sign (a ++ "." ++ b ++ "." ++ toString exp) secret = d
            · rw [if_pos hsig] at hv
              refine ⟨a, b, c, d, exp, rfl, hnum, h0, by omega, hsig, ?_⟩
              exact (Option.some_inj.mp hv).symm
            · rw [if_neg hsig] at hv
              exact absurd hv (by simp)
    · exact absurd hv (by simp)

/-- A demonstration keyed hash used only to instantiate the C9 theorem
on concrete inputs; like the base64url HMAC in the source, its output
never contains the "." delimiter. -/
def signDemo (input secret : String) : String :=
  String.mk ((input ++ "+" ++ secret).data.map (fun c => if c = '.' then '_' else c))

/-- Closed witness for C9: at clock 100, a three-field ticket, a ticket
expired at 50, and a ticket with a wrong signature all verify to none;
a freshly created ticket round-trips to its decoded payload. -/
theorem c9_ticket_verification_witness :
    verifyWsTicket signDemo 100 "k" "abc" = none
    ∧ verifyWsTicket signDemo 100 "k" "u.7.50.sig" = none
    ∧ verifyWsTicket signDemo 100 "k" "u.7.200.bad" = none
    ∧ verifyWsTicket signDemo 100 "k" (createWsTicket signDemo "u" "7" 100 "k")
        = some ⟨"u", some 7, 160⟩ :=
  ⟨(c9_ticket_verification_indistinguishable signDemo 100 "k").1 "abc" (by decide),
   (c9_ticket_verification_indistinguishable signDemo 100 "k").2.1
     "u.7.50.sig" "u" "7" "50" "sig" 50 (by decide) (by decide) (by decide),
   (c9_ticket_verification_indistinguishable signDemo 100 "k").2.2.1
     "u.7.200.bad" "u" "7" "200" "bad" 200 (by decide) (by decide) (by decide),
   by decide⟩

end Softadastra.Ticket
